import Mathlib

/-!
Verification of the one-box ocean tracer model of this repository
(notebook classes `onebox` and `onebox_sinusoid_river`).

Both classes hold two constructor attributes (`volume_ocean`, `river_flux`),
and their `integrate_tracer` methods assign the per-run attributes on `self`
and then hand the governing equation `ocean_onebox_equations`, the time span
`(0, run_duration)`, the initial state and (for the sinusoid variant) a
maximum step bound to the external adaptive solver
`scipy.integrate.solve_ivp` with method "RK45".  The solver result's `t` and
`y` arrays are stored on `self` and returned.  Plotting
(`plot_timeserie`) is purely presentational and is not modelled.

Python's exception channel is embedded as an `Except` return type; the
source contains no parameter validation and no raise statement, so the
embedded methods always return `.ok`.  The external solver is embedded as an
explicit function argument from the invocation record to a result record;
its documented success and max-step contracts, which are not code of this
repository, appear below as named predicates.
-/

open Real Filter List

noncomputable section

/-- The argument record `integrate_tracer` passes to the external solver
`scipy.integrate.solve_ivp`: right-hand side, time span `(t0, t_end)`,
scalar initial state (the source wraps it as `np.array([conc_ini])`),
the method string, and the optional maximum internal step size
(`solve_ivp`'s default is no bound). -/
structure SolveIvpCall where
  rhs : ℝ → ℝ → ℝ
  t0 : ℝ
  t_end : ℝ
  y0 : ℝ
  method : String
  max_step : Option ℝ

/-- The record the external solver returns: time samples `t`, the scalar row
of the `y` matrix (the source applies `.squeeze()` to the `1 × n` matrix),
and the success flag (`solve_ivp` reports integration failure through
this flag and truncated arrays; it does not raise). -/
structure SolverResult where
  t : List ℝ
  y : List ℝ
  success : Bool

/-- The error taxonomy named by the specification (§7).  The source defines
no exception class and contains no raise statement, so the embedded methods
below never produce either error. -/
inductive OneboxError where
  | invalidParameterError : OneboxError
  | integrationFailureError : OneboxError

/-- Attributes of a `onebox` instance.  `volume_ocean` and `river_flux` are
set by the constructor; every other attribute is (re)assigned by each
`integrate_tracer` call before it is read, so their values in a fresh
instance are irrelevant (in the source they are simply absent until the
first call). -/
structure OneboxState where
  volume_ocean : ℝ
  river_flux : ℝ
  name : String
  river_conc : ℝ
  removal_rate : ℝ
  conc_ini : ℝ
  time_ini : ℝ
  time_end : ℝ
  time : List ℝ
  tracer_conc : List ℝ

/-- Attributes of a `onebox_sinusoid_river` instance: the same as `onebox`
plus the `max_step` attribute its `integrate_tracer` assigns. -/
structure SinusoidState where
  volume_ocean : ℝ
  river_flux : ℝ
  name : String
  river_conc : ℝ
  removal_rate : ℝ
  conc_ini : ℝ
  time_ini : ℝ
  time_end : ℝ
  max_step : ℝ
  time : List ℝ
  tracer_conc : List ℝ

/-- `onebox.ocean_onebox_equations` (governing equation):
`dconcdt = (river_flux * river_conc - removal_rate * conc * volume_ocean) / volume_ocean`. -/
def onebox.ocean_onebox_equations (self : OneboxState) (time conc : ℝ) : ℝ :=
  (self.river_flux * self.river_conc -
    self.removal_rate * conc * self.volume_ocean) / self.volume_ocean

/-- The block of attribute assignments at the head of
`onebox.integrate_tracer`: `self.name = name`, `self.river_conc = river_conc`,
`self.removal_rate = removal_rate`, `self.conc_ini = np.array([conc_ini])`,
`self.time_ini = 0`, `self.time_end = run_duration`. -/
def onebox.run_state (self : OneboxState) (name : String)
    (river_conc removal_rate conc_ini run_duration : ℝ) : OneboxState :=
  { self with
    name := name
    river_conc := river_conc
    removal_rate := removal_rate
    conc_ini := conc_ini
    time_ini := 0
    time_end := run_duration }

/-- The `solve_ivp` invocation made by `onebox.integrate_tracer`:
`spint.solve_ivp(self.ocean_onebox_equations, (self.time_ini, self.time_end,),
self.conc_ini, method='RK45')` — note there is no `max_step` argument. -/
def onebox.solve_ivp_args (self : OneboxState) : SolveIvpCall :=
  { rhs := fun t y => onebox.ocean_onebox_equations self t y
    t0 := self.time_ini
    t_end := self.time_end
    y0 := self.conc_ini
    method := "RK45"
    max_step := none }

/-- `onebox.integrate_tracer`: assigns the run attributes, invokes the
solver, stores `solver['t']` and `solver['y'].squeeze()` on `self`, and
returns `(self.time, self.tracer_conc)`.  The `Except` layer embeds
Python's exception channel: the source raises nothing, so the result is
always `.ok`.  The `plot_timeserie` call is presentational and omitted. -/
def onebox.integrate_tracer (solve_ivp : SolveIvpCall → SolverResult)
    (self : OneboxState) (name : String)
    (river_conc removal_rate conc_ini run_duration : ℝ) :
    Except OneboxError (OneboxState × List ℝ × List ℝ) :=
  let self := onebox.run_state self name river_conc removal_rate conc_ini run_duration
  let solver := solve_ivp (onebox.solve_ivp_args self)
  let self := { self with time := solver.t, tracer_conc := solver.y }
  .ok (self, self.time, self.tracer_conc)

/-- `onebox_sinusoid_river.ocean_onebox_equations` (governing equation with
sinusoidal river input): `timescale_variation_river = 1e5`,
`omega = 2*np.pi/timescale_variation_river`,
`vary_river_conc = river_conc + (river_conc/2)*math.sin(omega*time)`,
`dconcdt = (river_flux * vary_river_conc - removal_rate * conc * volume_ocean) / volume_ocean`. -/
def onebox_sinusoid_river.ocean_onebox_equations (self : SinusoidState)
    (time conc : ℝ) : ℝ :=
  let timescale_variation_river : ℝ := 1e5
  let omega := 2 * Real.pi / timescale_variation_river
  let vary_river_conc := self.river_conc + (self.river_conc / 2) * Real.sin (omega * time)
  (self.river_flux * vary_river_conc -
    self.removal_rate * conc * self.volume_ocean) / self.volume_ocean

/-- The default value of the `maxstep` parameter in the signature of
`onebox_sinusoid_river.integrate_tracer`. -/
def onebox_sinusoid_river.maxstep_default : ℝ := 1e4

/-- The attribute assignments at the head of
`onebox_sinusoid_river.integrate_tracer`; compared to `onebox` it
additionally assigns `self.max_step = maxstep`. -/
def onebox_sinusoid_river.run_state (self : SinusoidState) (name : String)
    (river_conc removal_rate conc_ini run_duration maxstep : ℝ) : SinusoidState :=
  { self with
    name := name
    river_conc := river_conc
    removal_rate := removal_rate
    conc_ini := conc_ini
    time_ini := 0
    time_end := run_duration
    max_step := maxstep }

/-- The `solve_ivp` invocation made by
`onebox_sinusoid_river.integrate_tracer`: identical to the constant-forcing
variant except for the extra `max_step=self.max_step` argument. -/
def onebox_sinusoid_river.solve_ivp_args (self : SinusoidState) : SolveIvpCall :=
  { rhs := fun t y => onebox_sinusoid_river.ocean_onebox_equations self t y
    t0 := self.time_ini
    t_end := self.time_end
    y0 := self.conc_ini
    method := "RK45"
    max_step := some self.max_step }

/-- `onebox_sinusoid_river.integrate_tracer`: same shape as
`onebox.integrate_tracer` with the extra `maxstep` parameter forwarded to
the solver as `max_step`. -/
def onebox_sinusoid_river.integrate_tracer (solve_ivp : SolveIvpCall → SolverResult)
    (self : SinusoidState) (name : String)
    (river_conc removal_rate conc_ini run_duration maxstep : ℝ) :
    Except OneboxError (SinusoidState × List ℝ × List ℝ) :=
  let self := onebox_sinusoid_river.run_state self name river_conc removal_rate
    conc_ini run_duration maxstep
  let solver := solve_ivp (onebox_sinusoid_river.solve_ivp_args self)
  let self := { self with time := solver.t, tracer_conc := solver.y }
  .ok (self, self.time, self.tracer_conc)

/-- The steady-state concentration the specification calls `C_eq`:
`riverFlux · riverConcentration / (removalRate · volumeOcean)`. -/
def onebox.steady_state (self : OneboxState) : ℝ :=
  self.river_flux * self.river_conc / (self.removal_rate * self.volume_ocean)

/-- Modelled from the spec: the success contract of the external adaptive
solver (`scipy.integrate.solve_ivp` is not code of this repository): on a
successful run the reported time grid is strictly increasing, starts at
`t0`, ends at `t_end`, and carries one state value per time point. -/
def SolverResult.meets_success_contract (r : SolverResult) (c : SolveIvpCall) : Prop :=
  r.t.length = r.y.length ∧ r.t.Chain' (· < ·) ∧
    r.t.head? = some c.t0 ∧ r.t.getLast? = some c.t_end

/-- Modelled from the spec: the external solver's max-step contract — every
internal step, hence every gap between consecutive reported time points, is
at most `m` when `max_step = some m` was supplied. -/
def SolverResult.respects_max_step (r : SolverResult) (m : ℝ) : Prop :=
  r.t.Chain' (fun a b => b - a ≤ m)

/-- Dot product of a Runge–Kutta weight row with the stages computed so
far (missing entries on either side count as zero). -/
def rk_dot : List ℝ → List ℝ → ℝ
  | [], _ => 0
  | _, [] => 0
  | a :: arow, k :: ks => a * k + rk_dot arow ks

/-- The stage values of one step of a general explicit Runge–Kutta method:
each tableau row `(c i, a i)` contributes the stage
`k i = f (t + c i * h) (y + h * (a i · k))` computed from the earlier
stages.  RK45, the method `integrate_tracer` requests from the solver, is
the instance given by the Dormand–Prince tableau. -/
def rk_stages (f : ℝ → ℝ → ℝ) (t y h : ℝ) (tableau : List (ℝ × List ℝ)) : List ℝ :=
  tableau.foldl (fun ks row => ks ++ [f (t + row.1 * h) (y + h * rk_dot row.2 ks)]) []

/-- One step of a general explicit Runge–Kutta method with weight row `b`:
`y + h * (b · k)`. -/
def rk_step (f : ℝ → ℝ → ℝ) (tableau : List (ℝ × List ℝ)) (b : List ℝ)
    (t y h : ℝ) : ℝ :=
  y + h * rk_dot b (rk_stages f t y h tableau)

/-- The sequence of state samples an explicit Runge–Kutta method produces
from `y0` along a list of `(time, step)` pairs. -/
def rk_solution_samples (f : ℝ → ℝ → ℝ) (tableau : List (ℝ × List ℝ))
    (b : List ℝ) (y0 : ℝ) : List (ℝ × ℝ) → List ℝ
  | [] => [y0]
  | (t, h) :: rest =>
      y0 :: rk_solution_samples f tableau b (rk_step f tableau b t y0 h) rest

/-- A concrete `onebox` instance used to instantiate theorems: all
rate-type parameters equal to one. -/
def unit_state : OneboxState :=
  { volume_ocean := 1
    river_flux := 1
    name := ""
    river_conc := 1
    removal_rate := 1
    conc_ini := 0
    time_ini := 0
    time_end := 0
    time := []
    tracer_conc := [] }

/-- A concrete `onebox` instance with zero removal rate and zero river
flux. -/
def inert_state : OneboxState :=
  { unit_state with removal_rate := 0, river_flux := 0 }

/-- A concrete `onebox_sinusoid_river` instance matching `unit_state` on
the shared attributes. -/
def sinusoid_unit_state : SinusoidState :=
  { volume_ocean := 1
    river_flux := 1
    name := ""
    river_conc := 1
    removal_rate := 1
    conc_ini := 0
    time_ini := 0
    time_end := 0
    max_step := 0
    time := []
    tracer_conc := [] }

/-- The tracer name used in the notebook's reference runs. -/
def calcium : String := "Calcium"

/-- A concrete successful solver: it reports exactly the two endpoints of
the requested span and a constant state. -/
def two_point_solver : SolveIvpCall → SolverResult :=
  fun c => { t := [c.t0, c.t_end], y := [c.y0, c.y0], success := true }

/-- A concrete failing solver: it stalls 500 time units after `t0` and
reports `success = false` with the truncated arrays, exactly as
`scipy.integrate.solve_ivp` does when step control breaks down. -/
def stalled_solver : SolveIvpCall → SolverResult :=
  fun c => { t := [c.t0, c.t0 + 500], y := [c.y0, c.y0], success := false }

/-- A concrete degenerate solver reporting a single time point; its output
trivially satisfies any consecutive-gap bound. -/
def single_point_solver : SolveIvpCall → SolverResult :=
  fun c => { t := [c.t0], y := [c.y0], success := false }

/-- Claim C1: for the constant-forcing `onebox` model, the right-hand side
handed to the integrator evaluates at every time `t` and concentration `C`
to `(riverFlux · riverConcentration − removalRate · C · volumeOcean) /
volumeOcean`, and `integrate_tracer` asks the solver to integrate this ODE
forward from `t0 = 0` to `t_end = run_duration` starting from
`conc_ini`, returning exactly the solver's output arrays. -/
theorem claim_C1_constant_rhs_and_span (solve_ivp : SolveIvpCall → SolverResult)
    (s : OneboxState) (name : String)
    (river_conc removal_rate conc_ini run_duration t C : ℝ) :
    (onebox.solve_ivp_args
        (onebox.run_state s name river_conc removal_rate conc_ini run_duration)).rhs t C =
      (s.river_flux * river_conc - removal_rate * C * s.volume_ocean) / s.volume_ocean ∧
    (onebox.solve_ivp_args
        (onebox.run_state s name river_conc removal_rate conc_ini run_duration)).t0 = 0 ∧
    (onebox.solve_ivp_args
        (onebox.run_state s name river_conc removal_rate conc_ini run_duration)).t_end =
      run_duration ∧
    (onebox.solve_ivp_args
        (onebox.run_state s name river_conc removal_rate conc_ini run_duration)).y0 =
      conc_ini ∧
    onebox.integrate_tracer solve_ivp s name river_conc removal_rate conc_ini run_duration =
      .ok
        ({ onebox.run_state s name river_conc removal_rate conc_ini run_duration with
            time := (solve_ivp (onebox.solve_ivp_args
              (onebox.run_state s name river_conc removal_rate conc_ini run_duration))).t
            tracer_conc := (solve_ivp (onebox.solve_ivp_args
              (onebox.run_state s name river_conc removal_rate conc_ini run_duration))).y },
          ((solve_ivp (onebox.solve_ivp_args
              (onebox.run_state s name river_conc removal_rate conc_ini run_duration))).t,
            (solve_ivp (onebox.solve_ivp_args
              (onebox.run_state s name river_conc removal_rate conc_ini run_duration))).y)) :=
  ⟨rfl, rfl, rfl, rfl, rfl⟩

/-- Claim C2: for the sinusoidal-forcing variant the right-hand side at
time `t` and concentration `C` equals `(riverFlux · vary_river_conc(t) −
removalRate · C · volumeOcean) / volumeOcean` with
`vary_river_conc(t) = riverConcentration + (riverConcentration / 2) ·
sin(2π · t / 1e5)`, the oscillation timescale being the fixed constant
`1e5` years. -/
theorem claim_C2_sinusoid_rhs (s : SinusoidState) (t C : ℝ) :
    onebox_sinusoid_river.ocean_onebox_equations s t C =
      (s.river_flux *
          (s.river_conc + (s.river_conc / 2) * Real.sin (2 * Real.pi * t / 1e5)) -
        s.removal_rate * C * s.volume_ocean) / s.volume_ocean := by
  simp only [onebox_sinusoid_river.ocean_onebox_equations]
  rw [show 2 * Real.pi / 1e5 * t = 2 * Real.pi * t / 1e5 by ring]

/-- Claim C10: at `t = 0` the sinusoidal-forcing right-hand side coincides
with the constant-forcing right-hand side for matching parameters and
every concentration `C`, because `sin 0 = 0` makes
`vary_river_conc(0) = riverConcentration`. -/
theorem claim_C10_same_initial_tendency (z : SinusoidState) (s : OneboxState)
    (hv : z.volume_ocean = s.volume_ocean) (hf : z.river_flux = s.river_flux)
    (hc : z.river_conc = s.river_conc) (hr : z.removal_rate = s.removal_rate)
    (C : ℝ) :
    onebox_sinusoid_river.ocean_onebox_equations z 0 C =
      onebox.ocean_onebox_equations s 0 C := by
  unfold onebox_sinusoid_river.ocean_onebox_equations onebox.ocean_onebox_equations
  rw [hv, hf, hc, hr]
  simp

/-- Witness for claim C10 at the concrete matching pair
`sinusoid_unit_state`, `unit_state` and concentration `3`. -/
theorem claim_C10_witness :
    onebox_sinusoid_river.ocean_onebox_equations sinusoid_unit_state 0 3 =
      onebox.ocean_onebox_equations unit_state 0 3 :=
  claim_C10_same_initial_tendency sinusoid_unit_state unit_state rfl rfl rfl rfl 3

/-- Helper: the solver invocation of `onebox.integrate_tracer` depends only
on the constructor attributes `volume_ocean`, `river_flux` and the call
arguments, not on any leftover attribute of a previous run. -/
theorem onebox.solve_ivp_args_congr (s1 s2 : OneboxState) (name : String)
    (river_conc removal_rate conc_ini run_duration : ℝ)
    (hv : s1.volume_ocean = s2.volume_ocean) (hf : s1.river_flux = s2.river_flux) :
    onebox.solve_ivp_args
        (onebox.run_state s1 name river_conc removal_rate conc_ini run_duration) =
      onebox.solve_ivp_args
        (onebox.run_state s2 name river_conc removal_rate conc_ini run_duration) := by
  obtain ⟨v1, f1, n1, rc1, rr1, ci1, ti1, te1, tm1, tc1⟩ := s1
  obtain ⟨v2, f2, n2, rc2, rr2, ci2, ti2, te2, tm2, tc2⟩ := s2
  dsimp only at hv hf
  subst hv
  subst hf
  rfl

/-- Helper: `onebox.integrate_tracer` is a function of the constructor
attributes and the call arguments alone. -/
theorem onebox.integrate_tracer_congr (solve_ivp : SolveIvpCall → SolverResult)
    (s1 s2 : OneboxState) (name : String)
    (river_conc removal_rate conc_ini run_duration : ℝ)
    (hv : s1.volume_ocean = s2.volume_ocean) (hf : s1.river_flux = s2.river_flux) :
    onebox.integrate_tracer solve_ivp s1 name river_conc removal_rate conc_ini
        run_duration =
      onebox.integrate_tracer solve_ivp s2 name river_conc removal_rate conc_ini
        run_duration := by
  obtain ⟨v1, f1, n1, rc1, rr1, ci1, ti1, te1, tm1, tc1⟩ := s1
  obtain ⟨v2, f2, n2, rc2, rr2, ci2, ti2, te2, tm2, tc2⟩ := s2
  dsimp only at hv hf
  subst hv
  subst hf
  rfl

/-- Helper: the sinusoid variant's solver invocation likewise depends only
on the constructor attributes and the call arguments. -/
theorem sinusoid_integrate_tracer_congr
    (solve_ivp : SolveIvpCall → SolverResult) (z1 z2 : SinusoidState) (name : String)
    (river_conc removal_rate conc_ini run_duration maxstep : ℝ)
    (hv : z1.volume_ocean = z2.volume_ocean) (hf : z1.river_flux = z2.river_flux) :
    onebox_sinusoid_river.integrate_tracer solve_ivp z1 name river_conc removal_rate
        conc_ini run_duration maxstep =
      onebox_sinusoid_river.integrate_tracer solve_ivp z2 name river_conc removal_rate
        conc_ini run_duration maxstep := by
  obtain ⟨v1, f1, n1, rc1, rr1, ci1, ti1, te1, ms1, tm1, tc1⟩ := z1
  obtain ⟨v2, f2, n2, rc2, rr2, ci2, ti2, te2, ms2, tm2, tc2⟩ := z2
  dsimp only at hv hf
  subst hv
  subst hf
  rfl

/-- Claim C3 counterexample: at the concrete violating input
`removal_rate = −1 < 0`, `integrate_tracer` does not raise
`InvalidParameterError` — it invokes the solver and returns the solver's
output normally. -/
theorem claim_C3_counterexample :
    (-1 : ℝ) < 0 ∧
    onebox.integrate_tracer two_point_solver unit_state calcium 364e3 (-1) 0 1e6 ≠
      .error .invalidParameterError ∧
    onebox.integrate_tracer two_point_solver unit_state calcium 364e3 (-1) 0 1e6 =
      .ok
        ({ onebox.run_state unit_state calcium 364e3 (-1) 0 1e6 with
            time := [0, 1e6], tracer_conc := [0, 0] },
          ([0, 1e6], [0, 0])) :=
  ⟨by norm_num, fun h => Except.noConfusion h, rfl⟩

/-- Claim C3 amended: `integrate_tracer` performs no parameter validation
at all.  For every call whose parameters violate the §4.1 preconditions —
`removal_rate < 0`, `volume_ocean ≤ 0`, or non-positive duration — no
`InvalidParameterError` is raised: in both variants the solver is invoked
unconditionally and its output is returned normally. -/
theorem claim_C3_amended_no_validation (solve_ivp : SolveIvpCall → SolverResult)
    (s : OneboxState) (z : SinusoidState) (name : String)
    (river_conc removal_rate conc_ini run_duration maxstep : ℝ)
    (h : removal_rate < 0 ∨ s.volume_ocean ≤ 0 ∨ z.volume_ocean ≤ 0 ∨
      run_duration ≤ 0) :
    onebox.integrate_tracer solve_ivp s name river_conc removal_rate conc_ini run_duration =
      .ok
        ({ onebox.run_state s name river_conc removal_rate conc_ini run_duration with
            time := (solve_ivp (onebox.solve_ivp_args
              (onebox.run_state s name river_conc removal_rate conc_ini run_duration))).t
            tracer_conc := (solve_ivp (onebox.solve_ivp_args
              (onebox.run_state s name river_conc removal_rate conc_ini run_duration))).y },
          ((solve_ivp (onebox.solve_ivp_args
              (onebox.run_state s name river_conc removal_rate conc_ini run_duration))).t,
            (solve_ivp (onebox.solve_ivp_args
              (onebox.run_state s name river_conc removal_rate conc_ini run_duration))).y)) ∧
    onebox_sinusoid_river.integrate_tracer solve_ivp z name river_conc removal_rate
        conc_ini run_duration maxstep =
      .ok
        ({ onebox_sinusoid_river.run_state z name river_conc removal_rate conc_ini
              run_duration maxstep with
            time := (solve_ivp (onebox_sinusoid_river.solve_ivp_args
              (onebox_sinusoid_river.run_state z name river_conc removal_rate conc_ini
                run_duration maxstep))).t
            tracer_conc := (solve_ivp (onebox_sinusoid_river.solve_ivp_args
              (onebox_sinusoid_river.run_state z name river_conc removal_rate conc_ini
                run_duration maxstep))).y },
          ((solve_ivp (onebox_sinusoid_river.solve_ivp_args
              (onebox_sinusoid_river.run_state z name river_conc removal_rate conc_ini
                run_duration maxstep))).t,
            (solve_ivp (onebox_sinusoid_river.solve_ivp_args
              (onebox_sinusoid_river.run_state z name river_conc removal_rate conc_ini
                run_duration maxstep))).y)) :=
  ⟨rfl, rfl⟩

/-- Witness for the amended claim C3 at the concrete violating input
`removal_rate = −1`. -/
theorem claim_C3_amended_witness :
    onebox.integrate_tracer two_point_solver unit_state calcium 364e3 (-1) 0 1e6 =
      .ok
        ({ onebox.run_state unit_state calcium 364e3 (-1) 0 1e6 with
            time := (two_point_solver (onebox.solve_ivp_args
              (onebox.run_state unit_state calcium 364e3 (-1) 0 1e6))).t
            tracer_conc := (two_point_solver (onebox.solve_ivp_args
              (onebox.run_state unit_state calcium 364e3 (-1) 0 1e6))).y },
          ((two_point_solver (onebox.solve_ivp_args
              (onebox.run_state unit_state calcium 364e3 (-1) 0 1e6))).t,
            (two_point_solver (onebox.solve_ivp_args
              (onebox.run_state unit_state calcium 364e3 (-1) 0 1e6))).y)) ∧
    onebox_sinusoid_river.integrate_tracer two_point_solver sinusoid_unit_state calcium
        364e3 (-1) 0 1e6 1e4 =
      .ok
        ({ onebox_sinusoid_river.run_state sinusoid_unit_state calcium 364e3 (-1) 0
              1e6 1e4 with
            time := (two_point_solver (onebox_sinusoid_river.solve_ivp_args
              (onebox_sinusoid_river.run_state sinusoid_unit_state calcium 364e3 (-1) 0
                1e6 1e4))).t
            tracer_conc := (two_point_solver (onebox_sinusoid_river.solve_ivp_args
              (onebox_sinusoid_river.run_state sinusoid_unit_state calcium 364e3 (-1) 0
                1e6 1e4))).y },
          ((two_point_solver (onebox_sinusoid_river.solve_ivp_args
              (onebox_sinusoid_river.run_state sinusoid_unit_state calcium 364e3 (-1) 0
                1e6 1e4))).t,
            (two_point_solver (onebox_sinusoid_river.solve_ivp_args
              (onebox_sinusoid_river.run_state sinusoid_unit_state calcium 364e3 (-1) 0
                1e6 1e4))).y)) :=
  claim_C3_amended_no_validation two_point_solver unit_state sinusoid_unit_state calcium
    364e3 (-1) 0 1e6 1e4 (Or.inl (neg_lt_zero.mpr one_pos))

/-- Claim C4 counterexample: at a concrete run on which the solver fails
(`success = false`, time grid stalled at `t = 500` long before the
requested end time `1e6`), `integrate_tracer` raises nothing — it silently
returns the truncated time/concentration arrays. -/
theorem claim_C4_counterexample :
    (stalled_solver (onebox.solve_ivp_args
        (onebox.run_state unit_state calcium 364e3 1e-6 0 1e6))).success = false ∧
    onebox.integrate_tracer stalled_solver unit_state calcium 364e3 1e-6 0 1e6 ≠
      .error .integrationFailureError ∧
    onebox.integrate_tracer stalled_solver unit_state calcium 364e3 1e-6 0 1e6 =
      .ok
        ({ onebox.run_state unit_state calcium 364e3 1e-6 0 1e6 with
            time := [0, 500], tracer_conc := [0, 0] },
          ([0, 500], [0, 0])) ∧
    (500 : ℝ) ≠ 1e6 := by
  refine ⟨rfl, fun h => Except.noConfusion h, ?_, by norm_num⟩
  simp only [onebox.integrate_tracer, onebox.run_state, onebox.solve_ivp_args,
    stalled_solver]
  norm_num

/-- Claim C4 amended: when the underlying adaptive solver fails
(`success = false`), `integrate_tracer` does not raise an
`IntegrationFailureError`; it ignores the success flag and returns the
solver's (truncated) time/concentration arrays as a normal result. -/
theorem claim_C4_amended_silent_truncation (solve_ivp : SolveIvpCall → SolverResult)
    (s : OneboxState) (name : String)
    (river_conc removal_rate conc_ini run_duration : ℝ)
    (hfail : (solve_ivp (onebox.solve_ivp_args
      (onebox.run_state s name river_conc removal_rate conc_ini run_duration))).success =
      false) :
    onebox.integrate_tracer solve_ivp s name river_conc removal_rate conc_ini run_duration =
      .ok
        ({ onebox.run_state s name river_conc removal_rate conc_ini run_duration with
            time := (solve_ivp (onebox.solve_ivp_args
              (onebox.run_state s name river_conc removal_rate conc_ini run_duration))).t
            tracer_conc := (solve_ivp (onebox.solve_ivp_args
              (onebox.run_state s name river_conc removal_rate conc_ini run_duration))).y },
          ((solve_ivp (onebox.solve_ivp_args
              (onebox.run_state s name river_conc removal_rate conc_ini run_duration))).t,
            (solve_ivp (onebox.solve_ivp_args
              (onebox.run_state s name river_conc removal_rate conc_ini run_duration))).y)) :=
  rfl

/-- Helper: a dot product against a list of zeros vanishes. -/
theorem rk_dot_eq_zero : ∀ (b ks : List ℝ), (∀ x ∈ ks, x = 0) → rk_dot b ks = 0
  | [], ks, _ => by cases ks <;> rfl
  | _ :: _, [], _ => rfl
  | a :: arow, k :: ks, hz => by
      have hk : k = 0 := hz k (List.mem_cons_self k ks)
      have ih := rk_dot_eq_zero arow ks fun x hx => hz x (List.mem_cons_of_mem k hx)
      simp [rk_dot, hk, ih]

/-- Helper: every stage of an explicit Runge–Kutta step vanishes when the
right-hand side is identically zero (stated over the fold with an arbitrary
zero accumulator). -/
theorem rk_stages_zero_aux (f : ℝ → ℝ → ℝ) (hf : ∀ t y, f t y = 0) (t y h : ℝ) :
    ∀ (tableau : List (ℝ × List ℝ)) (ks : List ℝ), (∀ x ∈ ks, x = 0) →
      ∀ x ∈ tableau.foldl
        (fun ks row => ks ++ [f (t + row.1 * h) (y + h * rk_dot row.2 ks)]) ks, x = 0
  | [], _, hks => hks
  | _ :: rest, ks, hks => by
      intro x hx
      refine rk_stages_zero_aux f hf t y h rest _ ?_ x hx
      intro u hu
      rcases List.mem_append.mp hu with hu | hu
      · exact hks u hu
      · rw [List.mem_singleton] at hu
        rw [hu]
        exact hf _ _

/-- Helper: an explicit Runge–Kutta step with identically zero right-hand
side leaves the state unchanged. -/
theorem rk_step_zero (f : ℝ → ℝ → ℝ) (hf : ∀ t y, f t y = 0)
    (tableau : List (ℝ × List ℝ)) (b : List ℝ) (t y h : ℝ) :
    rk_step f tableau b t y h = y := by
  unfold rk_step rk_stages
  rw [rk_dot_eq_zero b _ (rk_stages_zero_aux f hf t y h tableau [] (by simp))]
  ring

/-- Helper: with an identically zero right-hand side, every sample an
explicit Runge–Kutta method produces equals the initial state. -/
theorem rk_solution_samples_const (f : ℝ → ℝ → ℝ) (hf : ∀ t y, f t y = 0)
    (tableau : List (ℝ × List ℝ)) (b : List ℝ) :
    ∀ (steps : List (ℝ × ℝ)) (y0 x : ℝ),
      x ∈ rk_solution_samples f tableau b y0 steps → x = y0
  | [], y0, x, hx => by simpa [rk_solution_samples] using hx
  | (t, h) :: rest, y0, x, hx => by
      rw [rk_solution_samples, rk_step_zero f hf tableau b t y0 h] at hx
      rcases List.mem_cons.mp hx with hx | hx
      · exact hx
      · exact rk_solution_samples_const f hf tableau b rest y0 x hx

/-- Claim C7: with `removal_rate = 0` and `river_flux = 0` the
constant-forcing right-hand side is identically zero, so every
concentration sample any explicit Runge–Kutta scheme (RK45 included)
produces from `conc_ini` equals `conc_ini`. -/
theorem claim_C7_zero_forcing_constant (s : OneboxState)
    (tableau : List (ℝ × List ℝ)) (b : List ℝ) (conc_ini t conc x : ℝ)
    (steps : List (ℝ × ℝ))
    (hrate : s.removal_rate = 0) (hflux : s.river_flux = 0)
    (hx : x ∈ rk_solution_samples (fun u c => onebox.ocean_onebox_equations s u c)
      tableau b conc_ini steps) :
    onebox.ocean_onebox_equations s t conc = 0 ∧ x = conc_ini := by
  have hzero : ∀ u c, onebox.ocean_onebox_equations s u c = 0 := by
    intro u c
    unfold onebox.ocean_onebox_equations
    rw [hrate, hflux]
    simp
  exact ⟨hzero t conc,
    rk_solution_samples_const _ hzero tableau b steps conc_ini x hx⟩

/-- Witness for claim C7 at the zero-forcing instance `inert_state` with
initial concentration `5`. -/
theorem claim_C7_witness :
    onebox.ocean_onebox_equations inert_state 2 3 = 0 ∧ (5 : ℝ) = 5 :=
  claim_C7_zero_forcing_constant inert_state [] [] 5 2 3 5 [] rfl rfl
    (List.mem_cons_self 5 [])

/-- Helper: with nonzero volume and removal rate the constant-forcing
right-hand side is linear relaxation toward the steady state. -/
theorem onebox.rhs_eq_decay (s : OneboxState) (hV : s.volume_ocean ≠ 0)
    (hk : s.removal_rate ≠ 0) (t c : ℝ) :
    onebox.ocean_onebox_equations s t c =
      s.removal_rate * (onebox.steady_state s - c) := by
  unfold onebox.ocean_onebox_equations onebox.steady_state
  field_simp
  ring

/-- Helper: every solution of the constant-forcing governing equation has
the closed form `E + (C 0 − E) · exp(−k t)` with `E` the steady state and
`k` the removal rate. -/
theorem onebox.solution_formula (s : OneboxState) (C : ℝ → ℝ)
    (hV : s.volume_ocean ≠ 0) (hk : s.removal_rate ≠ 0)
    (hC : ∀ t, HasDerivAt C (onebox.ocean_onebox_equations s t (C t)) t) (t : ℝ) :
    C t = onebox.steady_state s +
      (C 0 - onebox.steady_state s) * Real.exp (-(s.removal_rate * t)) := by
  have hC' : ∀ u, HasDerivAt C
      (s.removal_rate * (onebox.steady_state s - C u)) u := by
    intro u
    have h := hC u
    rwa [onebox.rhs_eq_decay s hV hk] at h
  have hg : ∀ u, HasDerivAt
      (fun v => (C v - onebox.steady_state s) * Real.exp (s.removal_rate * v)) 0 u := by
    intro u
    have h1 : HasDerivAt (fun v => C v - onebox.steady_state s)
        (s.removal_rate * (onebox.steady_state s - C u)) u :=
      (hC' u).sub_const (onebox.steady_state s)
    have h2 : HasDerivAt (fun v => Real.exp (s.removal_rate * v))
        (Real.exp (s.removal_rate * u) * s.removal_rate) u := by
      simpa using HasDerivAt.exp ((hasDerivAt_id u).const_mul s.removal_rate)
    have h3 := h1.mul h2
    convert h3 using 1
    ring
  have hconst : ∀ u, (C u - onebox.steady_state s) * Real.exp (s.removal_rate * u) =
      (C 0 - onebox.steady_state s) * Real.exp (s.removal_rate * 0) :=
    fun u => is_const_of_deriv_eq_zero
      (fun v => (hg v).differentiableAt) (fun v => (hg v).deriv) u 0
  have h := hconst t
  rw [mul_zero, Real.exp_zero, mul_one] at h
  have hx : Real.exp (s.removal_rate * t) * Real.exp (-(s.removal_rate * t)) = 1 := by
    rw [← Real.exp_add]
    simp
  calc C t
      = onebox.steady_state s + (C t - onebox.steady_state s) *
          (Real.exp (s.removal_rate * t) * Real.exp (-(s.removal_rate * t))) := by
        rw [hx]; ring
    _ = onebox.steady_state s + ((C t - onebox.steady_state s) *
          Real.exp (s.removal_rate * t)) * Real.exp (-(s.removal_rate * t)) := by
        ring
    _ = onebox.steady_state s + (C 0 - onebox.steady_state s) *
          Real.exp (-(s.removal_rate * t)) := by
        rw [h]

/-- Claim C6: for the constant-forcing governing equation with positive
volume and `removal_rate > 0`, every solution tends to the steady state
`C_eq = riverFlux · riverConcentration / (removalRate · volumeOcean)` as
time goes to infinity, whatever the initial concentration, and the approach
is monotone without overshoot: strictly increasing when starting below
`C_eq`, strictly decreasing when starting above. -/
theorem claim_C6_monotone_convergence (s : OneboxState) (C : ℝ → ℝ)
    (hV : 0 < s.volume_ocean) (hk : 0 < s.removal_rate)
    (hC : ∀ t, HasDerivAt C (onebox.ocean_onebox_equations s t (C t)) t) :
    Filter.Tendsto C Filter.atTop (nhds (onebox.steady_state s)) ∧
      (C 0 < onebox.steady_state s → StrictMono C) ∧
      (onebox.steady_state s < C 0 → StrictAnti C) := by
  have hform := onebox.solution_formula s C (ne_of_gt hV) (ne_of_gt hk) hC
  refine ⟨?_, ?_, ?_⟩
  · have h1 : Filter.Tendsto (fun t : ℝ => s.removal_rate * t)
        Filter.atTop Filter.atTop :=
      Filter.Tendsto.const_mul_atTop hk Filter.tendsto_id
    have h2 := Real.tendsto_exp_neg_atTop_nhds_zero.comp h1
    have h3 := (h2.const_mul (C 0 - onebox.steady_state s)).const_add
      (onebox.steady_state s)
    rw [mul_zero, add_zero] at h3
    exact h3.congr fun t => (hform t).symm
  · intro hlt a b hab
    have hcoef : C 0 - onebox.steady_state s < 0 := sub_neg.mpr hlt
    have hexp : Real.exp (-(s.removal_rate * b)) < Real.exp (-(s.removal_rate * a)) :=
      Real.exp_lt_exp.mpr (by nlinarith)
    have hmul := mul_lt_mul_of_neg_left hexp hcoef
    rw [hform a, hform b]
    linarith
  · intro hlt a b hab
    have hcoef : 0 < C 0 - onebox.steady_state s := sub_pos.mpr hlt
    have hexp : Real.exp (-(s.removal_rate * b)) < Real.exp (-(s.removal_rate * a)) :=
      Real.exp_lt_exp.mpr (by nlinarith)
    have hmul := mul_lt_mul_of_pos_left hexp hcoef
    rw [hform a, hform b]
    linarith

/-- Witness for claim C6: the constant solution sitting at the steady state
of `unit_state`. -/
theorem claim_C6_witness :
    Filter.Tendsto (fun _ : ℝ => (1 : ℝ)) Filter.atTop
      (nhds (onebox.steady_state unit_state)) ∧
      ((fun _ : ℝ => (1 : ℝ)) 0 < onebox.steady_state unit_state →
        StrictMono fun _ : ℝ => (1 : ℝ)) ∧
      (onebox.steady_state unit_state < (fun _ : ℝ => (1 : ℝ)) 0 →
        StrictAnti fun _ : ℝ => (1 : ℝ)) :=
  claim_C6_monotone_convergence unit_state (fun _ => 1) one_pos one_pos fun t => by
    have h := hasDerivAt_const t (1 : ℝ)
    simpa [onebox.ocean_onebox_equations, unit_state] using h

/-- Claim C9: `integrate_tracer` is a deterministic function of the
constructor parameters (`volume_ocean`, `river_flux`) and the call
arguments alone, in both variants; and each call leaves the constructor
attributes unchanged, so the result is independent of whatever
`integrate_tracer` calls preceded it on the instance. -/
theorem claim_C9_run_independence (solve_ivp : SolveIvpCall → SolverResult)
    (s1 s2 : OneboxState) (z1 z2 : SinusoidState) (name : String)
    (river_conc removal_rate conc_ini run_duration maxstep : ℝ)
    (hv : s1.volume_ocean = s2.volume_ocean) (hf : s1.river_flux = s2.river_flux)
    (hv2 : z1.volume_ocean = z2.volume_ocean) (hf2 : z1.river_flux = z2.river_flux)
    (st : OneboxState) (ts cs : List ℝ) (zt : SinusoidState) (ts2 cs2 : List ℝ)
    (heq : onebox.integrate_tracer solve_ivp s1 name river_conc removal_rate conc_ini
      run_duration = .ok (st, ts, cs))
    (heq2 : onebox_sinusoid_river.integrate_tracer solve_ivp z1 name river_conc
      removal_rate conc_ini run_duration maxstep = .ok (zt, ts2, cs2)) :
    (onebox.integrate_tracer solve_ivp s1 name river_conc removal_rate conc_ini
        run_duration =
      onebox.integrate_tracer solve_ivp s2 name river_conc removal_rate conc_ini
        run_duration) ∧
    (onebox_sinusoid_river.integrate_tracer solve_ivp z1 name river_conc removal_rate
        conc_ini run_duration maxstep =
      onebox_sinusoid_river.integrate_tracer solve_ivp z2 name river_conc removal_rate
        conc_ini run_duration maxstep) ∧
    st.volume_ocean = s1.volume_ocean ∧ st.river_flux = s1.river_flux ∧
    zt.volume_ocean = z1.volume_ocean ∧ zt.river_flux = z1.river_flux := by
  refine ⟨onebox.integrate_tracer_congr solve_ivp s1 s2 name river_conc removal_rate
    conc_ini run_duration hv hf,
    sinusoid_integrate_tracer_congr solve_ivp z1 z2 name river_conc
      removal_rate conc_ini run_duration maxstep hv2 hf2, ?_, ?_, ?_, ?_⟩ <;>
  · simp only [onebox.integrate_tracer, onebox_sinusoid_river.integrate_tracer,
      Except.ok.injEq, Prod.mk.injEq] at heq heq2
    obtain ⟨h1, -, -⟩ := heq
    obtain ⟨h2, -, -⟩ := heq2
    subst h1
    subst h2
    rfl

/-- Witness for claim C9: two runs from the same constructor parameters and
arguments. -/
theorem claim_C9_witness :
    (onebox.integrate_tracer two_point_solver unit_state calcium 364e3 1e-6 0 1 =
      onebox.integrate_tracer two_point_solver unit_state calcium 364e3 1e-6 0 1) ∧
    (onebox_sinusoid_river.integrate_tracer two_point_solver sinusoid_unit_state calcium
        364e3 1e-6 0 1 2 =
      onebox_sinusoid_river.integrate_tracer two_point_solver sinusoid_unit_state calcium
        364e3 1e-6 0 1 2) ∧
    ({ onebox.run_state unit_state calcium 364e3 1e-6 0 1 with
        time := [0, 1], tracer_conc := [0, 0] } : OneboxState).volume_ocean =
      unit_state.volume_ocean ∧
    ({ onebox.run_state unit_state calcium 364e3 1e-6 0 1 with
        time := [0, 1], tracer_conc := [0, 0] } : OneboxState).river_flux =
      unit_state.river_flux ∧
    ({ onebox_sinusoid_river.run_state sinusoid_unit_state calcium 364e3 1e-6 0 1 2 with
        time := [0, 1], tracer_conc := [0, 0] } : SinusoidState).volume_ocean =
      sinusoid_unit_state.volume_ocean ∧
    ({ onebox_sinusoid_river.run_state sinusoid_unit_state calcium 364e3 1e-6 0 1 2 with
        time := [0, 1], tracer_conc := [0, 0] } : SinusoidState).river_flux =
      sinusoid_unit_state.river_flux :=
  claim_C9_run_independence two_point_solver unit_state unit_state sinusoid_unit_state
    sinusoid_unit_state calcium 364e3 1e-6 0 1 2 rfl rfl rfl rfl
    ({ onebox.run_state unit_state calcium 364e3 1e-6 0 1 with
        time := [0, 1], tracer_conc := [0, 0] }) [0, 1] [0, 0]
    ({ onebox_sinusoid_river.run_state sinusoid_unit_state calcium 364e3 1e-6 0 1 2 with
        time := [0, 1], tracer_conc := [0, 0] }) [0, 1] [0, 0] rfl rfl

/-- Claim C5: whenever `integrate_tracer` completes with a solver run that
succeeded and the external solver honoured its documented success contract,
the returned pair has equal lengths, a strictly increasing time grid, first
time `0` and last time `run_duration` — in both variants. -/
theorem claim_C5_output_invariants (solve_ivp : SolveIvpCall → SolverResult)
    (s : OneboxState) (z : SinusoidState) (name : String)
    (river_conc removal_rate conc_ini run_duration maxstep : ℝ)
    (st : OneboxState) (ts cs : List ℝ) (zt : SinusoidState) (ts2 cs2 : List ℝ)
    (heq : onebox.integrate_tracer solve_ivp s name river_conc removal_rate conc_ini
      run_duration = .ok (st, ts, cs))
    (hok : SolverResult.meets_success_contract
      (solve_ivp (onebox.solve_ivp_args
        (onebox.run_state s name river_conc removal_rate conc_ini run_duration)))
      (onebox.solve_ivp_args
        (onebox.run_state s name river_conc removal_rate conc_ini run_duration)))
    (heq2 : onebox_sinusoid_river.integrate_tracer solve_ivp z name river_conc
      removal_rate conc_ini run_duration maxstep = .ok (zt, ts2, cs2))
    (hok2 : SolverResult.meets_success_contract
      (solve_ivp (onebox_sinusoid_river.solve_ivp_args
        (onebox_sinusoid_river.run_state z name river_conc removal_rate conc_ini
          run_duration maxstep)))
      (onebox_sinusoid_river.solve_ivp_args
        (onebox_sinusoid_river.run_state z name river_conc removal_rate conc_ini
          run_duration maxstep))) :
    (ts.length = cs.length ∧ ts.Chain' (· < ·) ∧ ts.head? = some 0 ∧
      ts.getLast? = some run_duration) ∧
    (ts2.length = cs2.length ∧ ts2.Chain' (· < ·) ∧ ts2.head? = some 0 ∧
      ts2.getLast? = some run_duration) := by
  simp only [onebox.integrate_tracer, onebox_sinusoid_river.integrate_tracer,
    Except.ok.injEq, Prod.mk.injEq] at heq heq2
  obtain ⟨-, hts, hcs⟩ := heq
  obtain ⟨-, hts2, hcs2⟩ := heq2
  subst hts
  subst hcs
  subst hts2
  subst hcs2
  obtain ⟨hlen, hchain, hhead, hlast⟩ := hok
  obtain ⟨hlen2, hchain2, hhead2, hlast2⟩ := hok2
  exact ⟨⟨hlen, hchain, hhead, hlast⟩, ⟨hlen2, hchain2, hhead2, hlast2⟩⟩

/-- Witness for claim C5 with the concrete successful solver
`two_point_solver` and `run_duration = 1`. -/
theorem claim_C5_witness :
    (([0, 1] : List ℝ).length = ([0, 0] : List ℝ).length ∧
      ([0, 1] : List ℝ).Chain' (· < ·) ∧ ([0, 1] : List ℝ).head? = some 0 ∧
      ([0, 1] : List ℝ).getLast? = some 1) ∧
    (([0, 1] : List ℝ).length = ([0, 0] : List ℝ).length ∧
      ([0, 1] : List ℝ).Chain' (· < ·) ∧ ([0, 1] : List ℝ).head? = some 0 ∧
      ([0, 1] : List ℝ).getLast? = some 1) :=
  claim_C5_output_invariants two_point_solver unit_state sinusoid_unit_state calcium
    364e3 1e-6 0 1 2
    ({ onebox.run_state unit_state calcium 364e3 1e-6 0 1 with
        time := [0, 1], tracer_conc := [0, 0] }) [0, 1] [0, 0]
    ({ onebox_sinusoid_river.run_state sinusoid_unit_state calcium 364e3 1e-6 0 1 2 with
        time := [0, 1], tracer_conc := [0, 0] }) [0, 1] [0, 0]
    rfl ⟨rfl, List.chain'_pair.mpr zero_lt_one, rfl, rfl⟩
    rfl ⟨rfl, List.chain'_pair.mpr zero_lt_one, rfl, rfl⟩

/-- Claim C8: the sinusoid variant forwards its `maxstep` parameter
(default `1e4`) to the solver as `max_step`, so any solver honouring its
max-step contract keeps every gap between consecutive returned time points
at most `maxstep`; the constant-forcing variant passes no bound. -/
theorem claim_C8_max_step_bound (solve_ivp : SolveIvpCall → SolverResult)
    (z : SinusoidState) (s : OneboxState) (name : String)
    (river_conc removal_rate conc_ini run_duration maxstep : ℝ)
    (zt : SinusoidState) (ts cs : List ℝ)
    (hcontract : ∀ c m, c.max_step = some m →
      SolverResult.respects_max_step (solve_ivp c) m)
    (heq : onebox_sinusoid_river.integrate_tracer solve_ivp z name river_conc
      removal_rate conc_ini run_duration maxstep = .ok (zt, ts, cs)) :
    (onebox_sinusoid_river.solve_ivp_args
        (onebox_sinusoid_river.run_state z name river_conc removal_rate conc_ini
          run_duration maxstep)).max_step = some maxstep ∧
    onebox_sinusoid_river.maxstep_default = 1e4 ∧
    ts.Chain' (fun a b => b - a ≤ maxstep) ∧
    (onebox.solve_ivp_args
        (onebox.run_state s name river_conc removal_rate conc_ini run_duration)).max_step =
      none := by
  refine ⟨rfl, rfl, ?_, rfl⟩
  simp only [onebox_sinusoid_river.integrate_tracer, Except.ok.injEq,
    Prod.mk.injEq] at heq
  obtain ⟨-, hts, -⟩ := heq
  subst hts
  exact hcontract _ maxstep rfl

/-- Witness for claim C8 with the degenerate solver `single_point_solver`,
whose one-point grid trivially satisfies every gap bound. -/
theorem claim_C8_witness :
    (onebox_sinusoid_river.solve_ivp_args
        (onebox_sinusoid_river.run_state sinusoid_unit_state calcium 364e3 1e-6 0 1
          2)).max_step = some 2 ∧
    onebox_sinusoid_river.maxstep_default = 1e4 ∧
    ([0] : List ℝ).Chain' (fun a b => b - a ≤ 2) ∧
    (onebox.solve_ivp_args
        (onebox.run_state unit_state calcium 364e3 1e-6 0 1)).max_step = none :=
  claim_C8_max_step_bound single_point_solver sinusoid_unit_state unit_state calcium
    364e3 1e-6 0 1 2
    ({ onebox_sinusoid_river.run_state sinusoid_unit_state calcium 364e3 1e-6 0 1 2 with
        time := [0], tracer_conc := [0] }) [0] [0]
    (fun c m _ => List.chain'_singleton c.t0) rfl

/-- Witness for the amended claim C4 at the concrete failing solver
`stalled_solver`. -/
theorem claim_C4_amended_witness :
    onebox.integrate_tracer stalled_solver unit_state calcium 364e3 1e-6 0 1e6 =
      .ok
        ({ onebox.run_state unit_state calcium 364e3 1e-6 0 1e6 with
            time := (stalled_solver (onebox.solve_ivp_args
              (onebox.run_state unit_state calcium 364e3 1e-6 0 1e6))).t
            tracer_conc := (stalled_solver (onebox.solve_ivp_args
              (onebox.run_state unit_state calcium 364e3 1e-6 0 1e6))).y },
          ((stalled_solver (onebox.solve_ivp_args
              (onebox.run_state unit_state calcium 364e3 1e-6 0 1e6))).t,
            (stalled_solver (onebox.solve_ivp_args
              (onebox.run_state unit_state calcium 364e3 1e-6 0 1e6))).y)) :=
  claim_C4_amended_silent_truncation stalled_solver unit_state calcium 364e3 1e-6 0 1e6 rfl

end
